import Mathlib

/-!
Shallow embedding of the Splunk instance-control layer of this repository
(`new_test/lib/helmut/splunk/local.py` and `new_test/lib/helmut/splunk/ssh.py`).

The execution transport (local subprocess or SSH connection) is modelled as a
static stub `Transport`: a function from the full command string to
`(exit code, stdout, stderr)` plus file/directory existence predicates and the
outcome of the external archiver collaborator.  Side effects performed through
the transport (commands run, trees deleted/moved/sent, listener notification)
are recorded in an event trace, and a small filesystem abstraction interprets
those events so that cleanup claims can be stated.

Python strings are modelled as Lean `String`s, with Python's `str.strip`,
`str.split('\n')` and `int(...)` translated char-by-char below.
-/

/-- The set of characters stripped by Python's `str.strip()` with no argument. -/
def isPyWS (c : Char) : Bool :=
  c = ' ' || c = '\t' || c = '\n' || c = '\r' || c = Char.ofNat 11 || c = Char.ofNat 12

/-- Python `s.strip()` on a character list: drop whitespace at both ends. -/
def pystripL (cs : List Char) : List Char :=
  ((cs.dropWhile isPyWS).reverse.dropWhile isPyWS).reverse

/-- Python `s.split('\n')` on a character list.  Always returns at least one
(possibly empty) line, like Python's `str.split` with an explicit separator. -/
def linesOf : List Char → List (List Char)
  | [] => [[]]
  | c :: rest =>
    if c = '\n' then [] :: linesOf rest
    else
      match linesOf rest with
      | [] => [[c]]
      | l :: ls => (c :: l) :: ls

/-- Decimal digit test for Python `int(...)`. -/
def isDigitC (c : Char) : Bool := '0' ≤ c && c ≤ '9'

/-- Value of a digit string (only meaningful when all characters are digits). -/
def digitsVal (cs : List Char) : Nat :=
  cs.foldl (fun acc c => acc * 10 + (c.toNat - 48)) 0

/-- A nonempty all-digit character list. -/
def allDigits (cs : List Char) : Bool :=
  !cs.isEmpty && cs.all isDigitC

/-- Python 2 `int(s)` on a string: strips surrounding whitespace, accepts an
optional sign followed by a nonempty run of decimal digits; anything else
raises `ValueError`, modelled as `none`. -/
def pythonIntL (cs0 : List Char) : Option Int :=
  let cs := pystripL cs0
  match cs with
  | '-' :: rest => if allDigits rest then some (-(digitsVal rest : Int)) else none
  | '+' :: rest => if allDigits rest then some ((digitsVal rest : Int)) else none
  | _ => if allDigits cs then some ((digitsVal cs : Int)) else none

/-- `stdout.strip().split('\n')[-1]` from `LocalSplunk._read_port_from_command`. -/
def lastRowOf (s : String) : List Char :=
  (linesOf (pystripL s.data)).getLastD []

/-- Whether `n` occurs at the start of `h` (character lists). -/
def leadsList : List Char → List Char → Bool
  | [], _ => true
  | _ :: _, [] => false
  | a :: as, b :: bs => a = b && leadsList as bs

/-- Whether `n` occurs somewhere inside `h` (character lists). -/
def occursIn (n : List Char) : List Char → Bool
  | [] => n.isEmpty
  | b :: bs => leadsList n (b :: bs) || occursIn n bs

/-- Python's `needle in haystack` on strings: substring containment. -/
def strContains (haystack needle : String) : Bool :=
  occursIn needle.data haystack.data

/-- `os.path.isabs` on POSIX: the path starts with a slash. -/
def isabs (p : String) : Bool :=
  match p.data with
  | [] => false
  | c :: _ => c = '/'

/-- Whether the path ends with a slash (for `os.path.join`). -/
def endsSlash (p : String) : Bool :=
  match p.data.getLast? with
  | some c => c = '/'
  | none => false

/-- `os.path.join(a, b)` on POSIX: an absolute second component discards the
first; otherwise the components are glued with a slash unless one is already
there or the first component is empty. -/
def pjoin (a b : String) : String :=
  if isabs b then b
  else if a = "" || endsSlash a then a ++ b
  else a ++ "/" ++ b

-- Small sanity checks that the translations behave like the Python originals.
example : pystripL "  a\nb  \n".data = "a\nb".data := by decide
example : linesOf "a\nb\n".data = ["a".data, "b".data, []] := by decide
example : pythonIntL " 8089 ".data = some 8089 := by decide
example : pythonIntL "-42".data = some (-42) := by decide
example : pythonIntL "".data = none := by decide
example : pythonIntL "12a".data = none := by decide
example : lastRowOf "warning...\n8089\n" = "8089".data := by decide
example : strContains "splunkd is running ok" "splunkd is running" = true := by decide
example : strContains "splunkd is not there" "splunkd is running" = false := by decide
example : pjoin "/opt/splunk" "bin" = "/opt/splunk/bin" := by decide
example : pjoin (pjoin "/opt/splunk" "bin") "/foo/bar" = "/foo/bar" := by decide

/-- The exception kinds raised by `local.py` / `ssh.py` along the modelled
paths.  `externalError` stands for an arbitrary exception escaping an external
collaborator (the archiver). -/
inductive SplunkError where
  | splunkNotInstalled
  | binaryMissing (binary : String)
  | commandExecutionFailure (cmd : String) (code : Int) (stdout stderr : String)
  | couldNotStartSplunk (cmd : String) (code : Int) (stdout stderr : String)
  | couldNotStopSplunk (cmd : String) (code : Int) (stdout stderr : String)
  | couldNotFindSplunkDirectory
  | valueError
  | externalError (msg : String)
  deriving Repr, DecidableEq

/-- Side effects issued through the transport or collaborators. -/
inductive Event where
  | runCmd (cmd : String)
  | makeDir (path : String)
  | extractArchive (archive dest : String)
  | moveTree (src dst : String)
  | sendTree (src dst : String)
  | removeTree (path : String)
  | notifyListeners
  deriving Repr, DecidableEq

/-- A static transport stub: file/directory existence, the result of running a
full command line (exit code, stdout, stderr), and the behaviour of the
external archiver collaborator (`helmut.util.archiver.extract`): whether it
raises, and which top-level entries it deposits in the destination. -/
structure Transport where
  isFile : String → Bool
  isDir : String → Bool
  run : String → Int × String × String
  extractOutcome : Except SplunkError Unit
  extractEntries : List String

/-- `LocalSplunk.COMMON_FLAGS`. -/
def COMMON_FLAGS : String := "--accept-license --no-prompt --answer-yes"

/-- `LocalSplunk._POSSIBLE_ARCHIVE_DIRECTORIES`. -/
def _POSSIBLE_ARCHIVE_DIRECTORIES : List String :=
  ["splunk", "splunkforwarder", "splunkbeta", "splunkforwarderbeta"]

namespace LocalSplunk

/-- `LocalSplunk.get_binary_path`: an absolute name is returned unchanged,
otherwise `os.path.join(splunk_home, 'bin', binary)`. -/
def get_binary_path (home binary : String) : String :=
  if isabs binary then binary
  else pjoin (pjoin home "bin") binary

/-- `LocalSplunk.splunk_binary`. -/
def splunkBinary (home : String) : String := get_binary_path home "splunk"

/-- `LocalSplunk._binary_exists(None)`: the splunk binary is resolved through
`get_binary_path` a second time before the existence check. -/
def splunkBinaryExists (t : Transport) (home : String) : Bool :=
  t.isFile (get_binary_path home (splunkBinary home))

/-- `LocalSplunk.is_installed`. -/
def is_installed (t : Transport) (home : String) : Bool :=
  splunkBinaryExists t home

/-- `LocalSplunk.execute_with_binary`: resolves the binary, validates its
existence (`_validate_binary` raises `BinaryMissing`), then runs the command
through the transport. -/
def execute_with_binary (t : Transport) (home binary cmd : String) :
    Except SplunkError (Int × String × String) × List Event :=
  let b := get_binary_path home binary
  if t.isFile (get_binary_path home b) then
    (Except.ok (t.run cmd), [Event.runCmd cmd])
  else
    (Except.error (SplunkError.binaryMissing b), [])

/-- `LocalSplunk.execute_without_common_flags`: raises `SplunkNotInstalled`
when the splunk binary is absent, otherwise executes with the splunk binary. -/
def execute_no_flags (t : Transport) (home cmd : String) :
    Except SplunkError (Int × String × String) × List Event :=
  if splunkBinaryExists t home then execute_with_binary t home (splunkBinary home) cmd
  else (Except.error SplunkError.splunkNotInstalled, [])

/-- `LocalSplunk.execute`: appends `COMMON_FLAGS` to the command. -/
def execute (t : Transport) (home cmd : String) :
    Except SplunkError (Int × String × String) × List Event :=
  execute_no_flags t home (cmd ++ " " ++ COMMON_FLAGS)

/-- `LocalSplunk.is_running`: false when not installed, otherwise runs
`status` and looks for the running token in stdout. -/
def is_running (t : Transport) (home : String) : Except SplunkError Bool × List Event :=
  if is_installed t home then
    match execute t home "status" with
    | (Except.ok (_, stdout, _), evs) =>
      (Except.ok (strContains stdout "splunkd is running"), evs)
    | (Except.error e, evs) => (Except.error e, evs)
  else (Except.ok false, [])

/-- `LocalSplunk._read_port_from_command`: `None` when the binary is absent or
the command exits non-zero, otherwise `int(stdout.strip().split('\n')[-1])`
(whose failure is a `ValueError`). -/
def _read_port_from_command (t : Transport) (home command : String) :
    Except SplunkError (Option Int) × List Event :=
  if splunkBinaryExists t home then
    match execute t home command with
    | (Except.ok (code, stdout, _), evs) =>
      if code ≠ 0 then (Except.ok none, evs)
      else
        match pythonIntL (lastRowOf stdout) with
        | some n => (Except.ok (some n), evs)
        | none => (Except.error SplunkError.valueError, evs)
    | (Except.error e, evs) => (Except.error e, evs)
  else (Except.ok none, [])

/-- `LocalSplunk.update_ports_from_splunk`: reads the splunkd (`soapport`)
port then the web (`httpport`) port. -/
def update_ports_from_splunk (t : Transport) (home : String) :
    Except SplunkError (Option Int × Option Int) × List Event :=
  match _read_port_from_command t home "soapport" with
  | (Except.error e, evs) => (Except.error e, evs)
  | (Except.ok p1, evs1) =>
    match _read_port_from_command t home "httpport" with
    | (Except.error e, evs2) => (Except.error e, evs1 ++ evs2)
    | (Except.ok p2, evs2) => (Except.ok (p1, p2), evs1 ++ evs2)

/-- `LocalSplunk._splunk_has_started`: refreshes the cached ports and notifies
the registered start listeners (the listener registry lives in the `base`
module; notification is recorded as an event). -/
def _splunk_has_started (t : Transport) (home : String) :
    Except SplunkError (Option Int × Option Int) × List Event :=
  match update_ports_from_splunk t home with
  | (Except.error e, evs) => (Except.error e, evs)
  | (Except.ok ports, evs) => (Except.ok ports, evs ++ [Event.notifyListeners])

/-- `LocalSplunk.version`: runs `version`, raising `CommandExecutionFailure`
on a non-zero exit code, otherwise returns the stripped stdout. -/
def version (t : Transport) (home : String) : Except SplunkError String × List Event :=
  match execute t home "version" with
  | (Except.error e, evs) => (Except.error e, evs)
  | (Except.ok (code, stdout, stderr), evs) =>
    if code ≠ 0 then
      (Except.error (SplunkError.commandExecutionFailure "version" code stdout stderr), evs)
    else (Except.ok (String.mk (pystripL stdout.data)), evs)

/-- The command string built by `LocalSplunk.start`. -/
def startCmd (autoPorts : Bool) : String :=
  "start" ++ (if autoPorts then " --auto-ports" else "")

/-- `LocalSplunk.start`: runs the start command, logs the version (which
invokes `self.version()`), verifies via the status probe
(`_verify_splunk_is_running` raises `CouldNotStartSplunk`), then runs the
post-start hook and returns the start command's exit code. -/
def start (t : Transport) (home : String) (autoPorts : Bool) :
    Except SplunkError Int × List Event :=
  match execute t home (startCmd autoPorts) with
  | (Except.error e, evs) => (Except.error e, evs)
  | (Except.ok (code, stdout, stderr), evs0) =>
    match version t home with
    | (Except.error e, evs1) => (Except.error e, evs0 ++ evs1)
    | (Except.ok _, evs1) =>
      match is_running t home with
      | (Except.error e, evs2) => (Except.error e, evs0 ++ evs1 ++ evs2)
      | (Except.ok running, evs2) =>
        if running then
          match _splunk_has_started t home with
          | (Except.error e, evs3) => (Except.error e, evs0 ++ evs1 ++ evs2 ++ evs3)
          | (Except.ok _, evs3) => (Except.ok code, evs0 ++ evs1 ++ evs2 ++ evs3)
        else
          (Except.error (SplunkError.couldNotStartSplunk (startCmd autoPorts) code stdout stderr),
           evs0 ++ evs1 ++ evs2)

/-- `LocalSplunk.stop`: runs the stop command, verifies via the status probe
(`_verify_splunk_is_not_running` raises `CouldNotStopSplunk` when still
running), and returns the stop command's exit code. -/
def stop (t : Transport) (home : String) : Except SplunkError Int × List Event :=
  match execute t home "stop" with
  | (Except.error e, evs) => (Except.error e, evs)
  | (Except.ok (code, stdout, stderr), evs0) =>
    match is_running t home with
    | (Except.error e, evs1) => (Except.error e, evs0 ++ evs1)
    | (Except.ok running, evs1) =>
      if running then
        (Except.error (SplunkError.couldNotStopSplunk "stop" code stdout stderr),
         evs0 ++ evs1)
      else (Except.ok code, evs0 ++ evs1)

/-- `LocalSplunk._stop_splunk_if_needed`. -/
def _stop_splunk_if_needed (t : Transport) (home : String) :
    Except SplunkError Unit × List Event :=
  match is_running t home with
  | (Except.error e, evs) => (Except.error e, evs)
  | (Except.ok true, evs) =>
    match stop t home with
    | (Except.error e, evs1) => (Except.error e, evs ++ evs1)
    | (Except.ok _, evs1) => (Except.ok (), evs ++ evs1)
  | (Except.ok false, evs) => (Except.ok (), evs)

end LocalSplunk

/-- Modelled from the spec: `helmut.util.fileutils.force_remove_directory` is
not under `src/`.  Per the spec's guaranteed-cleanup discipline it recursively
deletes the given path through the transport and never raises. -/
def force_remove_directory (path : String) : List Event :=
  [Event.removeTree path]

namespace LocalSplunk

/-- `LocalSplunk.uninstall`: stop the instance if it is running, then remove
the `splunk_home` directory (`fileutils.force_remove_directory`). -/
def uninstall (t : Transport) (home : String) : Except SplunkError Unit × List Event :=
  match _stop_splunk_if_needed t home with
  | (Except.error e, evs) => (Except.error e, evs)
  | (Except.ok _, evs) => (Except.ok (), evs ++ force_remove_directory home)

/-- The loop of `LocalSplunk._find_archive_directory_name` over
`_POSSIBLE_ARCHIVE_DIRECTORIES`. -/
def findDirLoop (dir : String) : List String → List String → Except SplunkError String
  | [], _ => Except.error SplunkError.couldNotFindSplunkDirectory
  | nm :: ns, entries =>
    if entries.contains nm then Except.ok (pjoin dir nm)
    else findDirLoop dir ns entries

/-- `LocalSplunk._find_archive_directory_name`: probe `os.listdir(directory)`
(here `entries`) against the fixed candidate list, raising
`CouldNotFindSplunkDirectory` when nothing matches. -/
def _find_archive_directory_name (dir : String) (entries : List String) :
    Except SplunkError String :=
  findDirLoop dir _POSSIBLE_ARCHIVE_DIRECTORIES entries

/-- `LocalSplunk._install_archive_with_temp_directory`: extract the archive
into the scratch directory (the archiver may raise), locate the product root,
and move it to `splunk_home` (`_move_extracted_splunk_to_splunk_home`, via
`fileutils.force_move_directory`). -/
def _install_archive_with_temp_directory (t : Transport) (home archive dir : String) :
    Except SplunkError Unit × List Event :=
  match t.extractOutcome with
  | Except.error e => (Except.error e, [Event.extractArchive archive dir])
  | Except.ok _ =>
    match _find_archive_directory_name dir t.extractEntries with
    | Except.error e => (Except.error e, [Event.extractArchive archive dir])
    | Except.ok source =>
      (Except.ok (), [Event.extractArchive archive dir, Event.moveTree source home])

/-- `LocalSplunk.install_from_archive`: stop if running, create a fresh
scratch directory (`tempfile.mkdtemp`, whose fresh name is the `scratch`
argument), try the extraction/move, and in the `finally` block remove the
scratch directory. -/
def install_from_archive (t : Transport) (home archive scratch : String) :
    Except SplunkError Unit × List Event :=
  match _stop_splunk_if_needed t home with
  | (Except.error e, evs) => (Except.error e, evs)
  | (Except.ok _, evs0) =>
    match _install_archive_with_temp_directory t home archive scratch with
    | (Except.error e, evs1) =>
      (Except.error e,
       evs0 ++ [Event.makeDir scratch] ++ evs1 ++ force_remove_directory scratch)
    | (Except.ok _, evs1) =>
      (Except.ok (),
       evs0 ++ [Event.makeDir scratch] ++ evs1 ++ force_remove_directory scratch)

/-- `LocalSplunk.apps_dir`. -/
def apps_dir (home : String) : String := pjoin (pjoin home "etc") "apps"

/-- `LocalSplunk._path_to_app`. -/
def _path_to_app (home name : String) : String := pjoin (apps_dir home) name

/-- `LocalSplunk.has_app`: directory-existence check under the apps dir. -/
def has_app (t : Transport) (home name : String) : Bool :=
  t.isDir (_path_to_app home name)

/-- `LocalSplunk.install_app`: extract the package straight into the apps
directory via the archiver collaborator (the `name` argument is unused). -/
def install_app (t : Transport) (home _name package : String) :
    Except SplunkError Unit × List Event :=
  match t.extractOutcome with
  | Except.error e => (Except.error e, [Event.extractArchive package (apps_dir home)])
  | Except.ok _ => (Except.ok (), [Event.extractArchive package (apps_dir home)])

end LocalSplunk

namespace SSHSplunk

/-- `SSHSplunk.get_binary_path`: joins `splunk_home/bin/binary`, falling back
to `splunk_home/splunk/bin/binary` when the primary candidate is not a file on
the remote host, and back to the primary candidate when neither exists.  (No
absolute-path short-circuit: that is inherited behaviour `ssh.py` overrides.) -/
def get_binary_path (t : Transport) (home binary : String) : String :=
  let p1 := pjoin (pjoin home "bin") binary
  if t.isFile p1 then p1
  else
    let p2 := pjoin (pjoin (pjoin home "splunk") "bin") binary
    if t.isFile p2 then p2
    else pjoin (pjoin home "bin") binary

/-- `SSHSplunk.splunk_binary`. -/
def splunkBinary (t : Transport) (home : String) : String :=
  get_binary_path t home "splunk"

/-- `SSHSplunk._binary_exists(None)`: resolve the splunk binary once more and
check file existence over the SSH connection. -/
def splunkBinaryExists (t : Transport) (home : String) : Bool :=
  t.isFile (get_binary_path t home (splunkBinary t home))

/-- `SSHSplunk.execute_with_binary`: serializes `binary + ' ' + command` into
one remote-shell invocation (after `_validate_binary`). -/
def execute_with_binary (t : Transport) (home binary cmd : String) :
    Except SplunkError (Int × String × String) × List Event :=
  let b := get_binary_path t home binary
  if t.isFile (get_binary_path t home b) then
    (Except.ok (t.run (b ++ " " ++ cmd)), [Event.runCmd (b ++ " " ++ cmd)])
  else
    (Except.error (SplunkError.binaryMissing b), [])

/-- `SSHSplunk.execute_without_common_flags`. -/
def execute_no_flags (t : Transport) (home cmd : String) :
    Except SplunkError (Int × String × String) × List Event :=
  if splunkBinaryExists t home then execute_with_binary t home (splunkBinary t home) cmd
  else (Except.error SplunkError.splunkNotInstalled, [])

/-- `SSHSplunk.execute`: appends `COMMON_FLAGS`. -/
def execute (t : Transport) (home cmd : String) :
    Except SplunkError (Int × String × String) × List Event :=
  execute_no_flags t home (cmd ++ " " ++ COMMON_FLAGS)

/-- `LocalSplunk.is_running` as inherited by `SSHSplunk` (dispatching to the
SSH `is_installed`/`execute`). -/
def is_running (t : Transport) (home : String) : Except SplunkError Bool × List Event :=
  if splunkBinaryExists t home then
    match execute t home "status" with
    | (Except.ok (_, stdout, _), evs) =>
      (Except.ok (strContains stdout "splunkd is running"), evs)
    | (Except.error e, evs) => (Except.error e, evs)
  else (Except.ok false, [])

/-- `SSHSplunk.stop`: issues the stop command and discards its result — no
status verification, no `CouldNotStopSplunk`, and no exit code is returned
(the Python method has no return statement). -/
def stop (t : Transport) (home : String) : Except SplunkError Unit × List Event :=
  match execute t home "stop" with
  | (Except.error e, evs) => (Except.error e, evs)
  | (Except.ok _, evs) => (Except.ok (), evs)

/-- `LocalSplunk._stop_splunk_if_needed` as inherited by `SSHSplunk`
(dispatching to the SSH `is_running` and `stop`). -/
def _stop_splunk_if_needed (t : Transport) (home : String) :
    Except SplunkError Unit × List Event :=
  match is_running t home with
  | (Except.error e, evs) => (Except.error e, evs)
  | (Except.ok true, evs) =>
    match stop t home with
    | (Except.error e, evs1) => (Except.error e, evs ++ evs1)
    | (Except.ok _, evs1) => (Except.ok (), evs ++ evs1)
  | (Except.ok false, evs) => (Except.ok (), evs)

/-- `SSHSplunk.uninstall`: stop if running, then remove the remote
`splunk_home` tree (`SSHFileUtils.force_remove_tree`, i.e. `rm -rf`). -/
def uninstall (t : Transport) (home : String) : Except SplunkError Unit × List Event :=
  match _stop_splunk_if_needed t home with
  | (Except.error e, evs) => (Except.error e, evs)
  | (Except.ok _, evs) => (Except.ok (), evs ++ [Event.removeTree home])

/-- `SSHSplunk.has_app`: remote directory-existence check. -/
def has_app (t : Transport) (home name : String) : Bool :=
  t.isDir (LocalSplunk._path_to_app home name)

/-- `SSHSplunk._install_app_with_tempdir`: extract the package into the local
scratch directory, then send it to the remote app path. -/
def _install_app_with_tempdir (t : Transport) (home name package path : String) :
    Except SplunkError Unit × List Event :=
  match t.extractOutcome with
  | Except.error e => (Except.error e, [Event.extractArchive package path])
  | Except.ok _ =>
    (Except.ok (),
     [Event.extractArchive package path,
      Event.sendTree path (LocalSplunk._path_to_app home name)])

/-- `SSHSplunk.install_app`: returns `False` without doing anything when
`has_app(name)` is false; otherwise creates a local scratch directory under
the system temp dir (`scratchBase` models `tempfile.gettempdir()`), extracts
and sends the app, removing the scratch directory in the `finally` block. -/
def install_app (t : Transport) (home name package scratchBase : String) :
    Except SplunkError Bool × List Event :=
  if !has_app t home name then (Except.ok false, [])
  else
    let path := pjoin scratchBase ("ssh_splunk_temp_" ++ name)
    match _install_app_with_tempdir t home name package path with
    | (Except.error e, evs) =>
      (Except.error e, [Event.makeDir path] ++ evs ++ force_remove_directory path)
    | (Except.ok _, evs) =>
      (Except.ok true, [Event.makeDir path] ++ evs ++ force_remove_directory path)

end SSHSplunk

/-- Strict path-prefix test: `q` lies strictly below directory `p`. -/
def isUnderPath (p q : String) : Bool :=
  leadsList (p.data ++ ['/']) q.data

/-- Interpretation of one traced event on an abstract filesystem (a predicate
telling which paths exist).  `t` supplies the top-level entries the archiver
deposits.  Recursive deletion and moves erase the path and everything strictly
below it. -/
def applyEvent (t : Transport) (fs : String → Bool) : Event → String → Bool
  | Event.runCmd _ => fs
  | Event.notifyListeners => fs
  | Event.makeDir p => fun q => if q = p then true else fs q
  | Event.extractArchive _ dest => fun q =>
      if t.extractEntries.any (fun e => q = pjoin dest e) then true else fs q
  | Event.moveTree src dst => fun q =>
      if q = src || isUnderPath src q then false
      else if q = dst then true else fs q
  | Event.sendTree _ dst => fun q => if q = dst then true else fs q
  | Event.removeTree p => fun q =>
      if q = p || isUnderPath p q then false else fs q

/-- Run a trace of events over an initial filesystem. -/
def evalFS (t : Transport) (fs : String → Bool) (evs : List Event) : String → Bool :=
  evs.foldl (applyEvent t) fs

section PathLemmas

/-- Appending on the right keeps a path absolute. -/
theorem isabs_append (a s : String) (h : isabs a = true) : isabs (a ++ s) = true := by
  cases a with
  | mk d =>
    cases s with
    | mk d2 =>
      cases d with
      | nil => simp [isabs] at h
      | cons c cs =>
        simp only [isabs] at h ⊢
        simpa [String.data_append] using h

/-- An absolute path is nonempty. -/
theorem ne_empty_of_isabs (a : String) (h : isabs a = true) : (a = "") = False := by
  simp only [eq_iff_iff, iff_false]
  intro he
  rw [he] at h
  simp [isabs] at h

/-- Joining a relative component onto an absolute path stays absolute. -/
theorem isabs_pjoin (a b : String) (ha : isabs a = true) : isabs (pjoin a b) = true := by
  unfold pjoin
  by_cases hb : isabs b = true
  · simp [hb]
  · simp only [Bool.not_eq_true] at hb
    simp only [hb, if_false]
    by_cases he : (a = "" || endsSlash a) = true
    · simp only [he, if_true]
      exact isabs_append a b ha
    · simp only [he, if_false]
      exact isabs_append (a ++ "/") b (isabs_append a "/" ha)

end PathLemmas

namespace LocalSplunk

/-- An absolute binary name is returned unchanged. -/
theorem gbp_of_abs (home b : String) (h : isabs b = true) :
    get_binary_path home b = b := by
  simp [get_binary_path, h]

/-- With an absolute install root, every resolved binary path is absolute. -/
theorem isabs_gbp (home b : String) (h : isabs home = true) :
    isabs (get_binary_path home b) = true := by
  unfold get_binary_path
  by_cases hb : isabs b = true
  · simp [hb]
  · simp only [Bool.not_eq_true] at hb
    simp only [hb, if_false]
    exact isabs_pjoin _ _ (isabs_pjoin _ _ h)

/-- Resolution is idempotent over an absolute install root. -/
theorem gbp_idem (home b : String) (h : isabs home = true) :
    get_binary_path home (get_binary_path home b) = get_binary_path home b :=
  gbp_of_abs home _ (isabs_gbp home b h)

/-- With an absolute root the double resolution in `_binary_exists` collapses. -/
theorem splunkBinaryExists_eq (t : Transport) (home : String) (h : isabs home = true) :
    splunkBinaryExists t home = t.isFile (splunkBinary home) := by
  unfold splunkBinaryExists splunkBinary
  rw [gbp_idem home "splunk" h]

/-- With an absolute root and the splunk binary present, `execute` runs the
flag-extended command through the transport and records it. -/
theorem execute_ok (t : Transport) (home c : String)
    (h : isabs home = true) (hx : splunkBinaryExists t home = true) :
    execute t home c =
      (Except.ok (t.run (c ++ " " ++ COMMON_FLAGS)),
       [Event.runCmd (c ++ " " ++ COMMON_FLAGS)]) := by
  have hb : get_binary_path home (splunkBinary home) = splunkBinary home :=
    gbp_idem home "splunk" h
  have hx' : t.isFile (splunkBinary home) = true := by
    rw [splunkBinaryExists_eq t home h] at hx
    exact hx
  unfold execute execute_no_flags execute_with_binary
  simp only [hx, if_true, hb, hx']

/-- The status probe under an absolute root with the binary present. -/
theorem is_running_eq (t : Transport) (home : String)
    (h : isabs home = true) (hx : splunkBinaryExists t home = true) :
    is_running t home =
      (Except.ok (strContains (t.run ("status " ++ COMMON_FLAGS)).2.1 "splunkd is running"),
       [Event.runCmd ("status " ++ COMMON_FLAGS)]) := by
  unfold is_running is_installed
  rw [execute_ok t home "status" h hx]
  simp [hx]

/-- `version` raises `CommandExecutionFailure` exactly on a non-zero exit. -/
theorem version_eq (t : Transport) (home : String)
    (h : isabs home = true) (hx : splunkBinaryExists t home = true) :
    version t home =
      (if (t.run ("version " ++ COMMON_FLAGS)).1 ≠ 0 then
        Except.error (SplunkError.commandExecutionFailure "version"
          (t.run ("version " ++ COMMON_FLAGS)).1
          (t.run ("version " ++ COMMON_FLAGS)).2.1
          (t.run ("version " ++ COMMON_FLAGS)).2.2)
      else Except.ok (String.mk (pystripL (t.run ("version " ++ COMMON_FLAGS)).2.1.data)),
       [Event.runCmd ("version " ++ COMMON_FLAGS)]) := by
  unfold version
  rw [execute_ok t home "version" h hx]
  by_cases hc : (t.run ("version " ++ COMMON_FLAGS)).1 = 0
  · simp [hc]
  · simp [hc]

/-- The port-read result under an absolute root with the binary present. -/
theorem read_port_eq (t : Transport) (home c : String)
    (h : isabs home = true) (hx : splunkBinaryExists t home = true) :
    _read_port_from_command t home c =
      ((if (t.run (c ++ " " ++ COMMON_FLAGS)).1 ≠ 0 then Except.ok none
        else
          match pythonIntL (lastRowOf (t.run (c ++ " " ++ COMMON_FLAGS)).2.1) with
          | some n => Except.ok (some n)
          | none => Except.error SplunkError.valueError),
       [Event.runCmd (c ++ " " ++ COMMON_FLAGS)]) := by
  unfold _read_port_from_command
  simp only [hx, if_true]
  rw [execute_ok t home c h hx]
  by_cases hc : (t.run (c ++ " " ++ COMMON_FLAGS)).1 = 0
  · simp only [hc, ne_eq, not_true_eq_false, if_false, ite_false]
    cases hp : pythonIntL (lastRowOf (t.run (c ++ " " ++ COMMON_FLAGS)).2.1) <;>
      simp [hp, hc]
  · simp [hc]

end LocalSplunk

/-- Whether an error is a `CouldNotStartSplunk`. -/
def isStartErr : SplunkError → Bool
  | SplunkError.couldNotStartSplunk _ _ _ _ => true
  | _ => false

/-- Whether an error is a `CouldNotStopSplunk`. -/
def isStopErr : SplunkError → Bool
  | SplunkError.couldNotStopSplunk _ _ _ _ => true
  | _ => false

/-- Whether a result is a raised `CouldNotStartSplunk`. -/
def isCouldNotStart {α : Type} : Except SplunkError α → Bool
  | Except.error e => isStartErr e
  | Except.ok _ => false

/-- Whether a result is a raised `CouldNotStopSplunk`. -/
def isCouldNotStop {α : Type} : Except SplunkError α → Bool
  | Except.error e => isStopErr e
  | Except.ok _ => false

namespace LocalSplunk

/-- `execute` never raises a lifecycle verification error. -/
theorem execute_not_start_error (t : Transport) (home c : String) :
    isCouldNotStart (execute t home c).1 = false := by
  unfold execute execute_no_flags execute_with_binary
  by_cases h1 : splunkBinaryExists t home = true
  · simp only [h1, if_true]
    by_cases h2 :
        t.isFile (get_binary_path home (get_binary_path home (splunkBinary home))) = true
    · simp [h2, isCouldNotStart]
    · simp [h2, isCouldNotStart, isStartErr]
  · simp [h1, isCouldNotStart, isStartErr]

/-- A port read never raises a lifecycle verification error. -/
theorem read_port_not_start_error (t : Transport) (home c : String) :
    isCouldNotStart (_read_port_from_command t home c).1 = false := by
  unfold _read_port_from_command
  split
  · rcases he : execute t home c with ⟨r, evs⟩
    have hr : isCouldNotStart r = false := by
      have h0 := execute_not_start_error t home c
      rw [he] at h0
      exact h0
    cases r with
    | ok v =>
      rcases v with ⟨code, stdout, stderr⟩
      simp only []
      split
      · rfl
      · split
        all_goals rfl
    | error e => exact hr
  · rfl

/-- The post-start hook never raises a lifecycle verification error. -/
theorem has_started_not_start_error (t : Transport) (home : String) :
    isCouldNotStart (_splunk_has_started t home).1 = false := by
  unfold _splunk_has_started update_ports_from_splunk
  rcases hp1 : _read_port_from_command t home "soapport" with ⟨r1, evs1⟩
  have h1 : isCouldNotStart r1 = false := by
    have h0 := read_port_not_start_error t home "soapport"
    rw [hp1] at h0
    exact h0
  cases r1 with
  | error e => exact h1
  | ok p1 =>
    rcases hp2 : _read_port_from_command t home "httpport" with ⟨r2, evs2⟩
    have h2 : isCouldNotStart r2 = false := by
      have h0 := read_port_not_start_error t home "httpport"
      rw [hp2] at h0
      exact h0
    cases r2 with
    | error e => exact h2
    | ok p2 => rfl

end LocalSplunk

/-- A transport stub on which the start command exits 0, the version query
exits 1, and the status probe reports not-running. -/
def tC1 : Transport where
  isFile := fun _ => true
  isDir := fun _ => false
  run := fun c =>
    if c = "version --accept-license --no-prompt --answer-yes" then (1, "", "version failed")
    else (0, "", "")
  extractOutcome := Except.ok ()
  extractEntries := []

/-- C1 counterexample: on `tC1` the post-start status probe reports
not-running, yet `start()` does not raise `CouldNotStartSplunk` — it raises
`CommandExecutionFailure` from the intervening `version()` call — so the
claimed equivalence fails in the right-to-left direction. -/
theorem claim_C1_counterexample :
    strContains (tC1.run ("status " ++ COMMON_FLAGS)).2.1 "splunkd is running" = false ∧
    isCouldNotStart (LocalSplunk.start tC1 "/opt/splunk" false).1 = false ∧
    (LocalSplunk.start tC1 "/opt/splunk" false).1 =
      Except.error (SplunkError.commandExecutionFailure "version" 1 "" "version failed") := by
  refine ⟨by decide, by decide, rfl⟩

/-- C1 (amended): for every transport with the splunk binary present,
provided the version query that `start()` issues between the start command
and the verification exits 0, `start(auto_ports)` raises `CouldNotStartSplunk`
iff the status probe's stdout lacks the running token — regardless of the
start command's exit code — and the raised error carries the original start
command, its exit code, stdout and stderr. -/
theorem claim_C1 (t : Transport) (home : String) (autoPorts : Bool)
    (h : isabs home = true)
    (hx : LocalSplunk.splunkBinaryExists t home = true)
    (hv : (t.run ("version " ++ COMMON_FLAGS)).1 = 0) :
    (isCouldNotStart (LocalSplunk.start t home autoPorts).1 = true ↔
      strContains (t.run ("status " ++ COMMON_FLAGS)).2.1 "splunkd is running" = false) ∧
    (strContains (t.run ("status " ++ COMMON_FLAGS)).2.1 "splunkd is running" = false →
      (LocalSplunk.start t home autoPorts).1 =
        Except.error (SplunkError.couldNotStartSplunk (LocalSplunk.startCmd autoPorts)
          (t.run (LocalSplunk.startCmd autoPorts ++ " " ++ COMMON_FLAGS)).1
          (t.run (LocalSplunk.startCmd autoPorts ++ " " ++ COMMON_FLAGS)).2.1
          (t.run (LocalSplunk.startCmd autoPorts ++ " " ++ COMMON_FLAGS)).2.2)) := by
  unfold LocalSplunk.start
  rw [LocalSplunk.execute_ok t home (LocalSplunk.startCmd autoPorts) h hx]
  rw [LocalSplunk.version_eq t home h hx]
  simp only [hv, ne_eq, not_true_eq_false, if_false, ite_false, not_false_eq_true, ite_true]
  rw [LocalSplunk.is_running_eq t home h hx]
  cases hst : strContains (t.run ("status " ++ COMMON_FLAGS)).2.1 "splunkd is running" with
  | true =>
    simp only [if_true]
    rcases hh : LocalSplunk._splunk_has_started t home with ⟨r3, evs3⟩
    have h3 : isCouldNotStart r3 = false := by
      have h0 := LocalSplunk.has_started_not_start_error t home
      rw [hh] at h0
      exact h0
    cases r3 with
    | error e =>
      simp only []
      have h3f : isStartErr e = false := h3
      constructor
      · constructor
        · intro hcs
          have h3t : isStartErr e = true := hcs
          rw [h3t] at h3f
          exact h3f
        · intro hfalse
          simp at hfalse
      · intro hfalse
        simp at hfalse
    | ok p =>
      simp only []
      constructor
      · constructor
        · intro hcs
          simp [isCouldNotStart] at hcs
        · intro hfalse
          simp at hfalse
      · intro hfalse
        simp at hfalse
  | false =>
    simp [isCouldNotStart, isStartErr]

/-- A transport stub on which the version query succeeds and the status probe
reports running. -/
def tC1w : Transport where
  isFile := fun _ => true
  isDir := fun _ => false
  run := fun c =>
    if c = "status --accept-license --no-prompt --answer-yes" then
      (0, "splunkd is running (PID: 123).", "")
    else (0, "8089", "")
  extractOutcome := Except.ok ()
  extractEntries := []

/-- Witness for C1 at the concrete transport `tC1w`. -/
theorem claim_C1_witness :
    isabs "/opt/splunk" = true ∧
    LocalSplunk.splunkBinaryExists tC1w "/opt/splunk" = true ∧
    (tC1w.run ("version " ++ COMMON_FLAGS)).1 = 0 ∧
    ((isCouldNotStart (LocalSplunk.start tC1w "/opt/splunk" false).1 = true ↔
      strContains (tC1w.run ("status " ++ COMMON_FLAGS)).2.1 "splunkd is running" = false) ∧
     (strContains (tC1w.run ("status " ++ COMMON_FLAGS)).2.1 "splunkd is running" = false →
      (LocalSplunk.start tC1w "/opt/splunk" false).1 =
        Except.error (SplunkError.couldNotStartSplunk (LocalSplunk.startCmd false)
          (tC1w.run (LocalSplunk.startCmd false ++ " " ++ COMMON_FLAGS)).1
          (tC1w.run (LocalSplunk.startCmd false ++ " " ++ COMMON_FLAGS)).2.1
          (tC1w.run (LocalSplunk.startCmd false ++ " " ++ COMMON_FLAGS)).2.2))) :=
  ⟨by decide, by decide, by decide,
   claim_C1 tC1w "/opt/splunk" false (by decide) (by decide) (by decide)⟩

/-- C10 (confirmed): with the binary present and the version query exiting
non-zero, `start()` raises `CommandExecutionFailure` from `version()` — an
error other than `CouldNotStartSplunk` — and its trace stops after exactly the
start command and the version command: the status probe is never run, no port
is refreshed and no listener is notified, regardless of what the status probe
would have reported. -/
theorem claim_C10 (t : Transport) (home : String) (autoPorts : Bool)
    (h : isabs home = true)
    (hx : LocalSplunk.splunkBinaryExists t home = true)
    (hv : (t.run ("version " ++ COMMON_FLAGS)).1 ≠ 0) :
    LocalSplunk.start t home autoPorts =
      (Except.error (SplunkError.commandExecutionFailure "version"
          (t.run ("version " ++ COMMON_FLAGS)).1
          (t.run ("version " ++ COMMON_FLAGS)).2.1
          (t.run ("version " ++ COMMON_FLAGS)).2.2),
       [Event.runCmd (LocalSplunk.startCmd autoPorts ++ " " ++ COMMON_FLAGS),
        Event.runCmd ("version " ++ COMMON_FLAGS)]) := by
  unfold LocalSplunk.start
  rw [LocalSplunk.execute_ok t home (LocalSplunk.startCmd autoPorts) h hx]
  rw [LocalSplunk.version_eq t home h hx]
  simp [hv]

/-- A transport stub on which the status probe reports running but the
version query exits non-zero. -/
def tC10w : Transport where
  isFile := fun _ => true
  isDir := fun _ => false
  run := fun c =>
    if c = "version --accept-license --no-prompt --answer-yes" then (2, "", "no version")
    else (0, "splunkd is running (PID: 99).", "")
  extractOutcome := Except.ok ()
  extractEntries := []

/-- Witness for C10: on `tC10w` the instance reports running, yet `start()`
fails with `CommandExecutionFailure` after only two transport commands. -/
theorem claim_C10_witness :
    isabs "/opt/splunk" = true ∧
    LocalSplunk.splunkBinaryExists tC10w "/opt/splunk" = true ∧
    (tC10w.run ("version " ++ COMMON_FLAGS)).1 ≠ 0 ∧
    strContains (tC10w.run ("status " ++ COMMON_FLAGS)).2.1 "splunkd is running" = true ∧
    LocalSplunk.start tC10w "/opt/splunk" true =
      (Except.error (SplunkError.commandExecutionFailure "version"
          (tC10w.run ("version " ++ COMMON_FLAGS)).1
          (tC10w.run ("version " ++ COMMON_FLAGS)).2.1
          (tC10w.run ("version " ++ COMMON_FLAGS)).2.2),
       [Event.runCmd (LocalSplunk.startCmd true ++ " " ++ COMMON_FLAGS),
        Event.runCmd ("version " ++ COMMON_FLAGS)]) :=
  ⟨by decide, by decide, by decide, by decide,
   claim_C10 tC10w "/opt/splunk" true (by decide) (by decide) (by decide)⟩

/-- `os.path.join` discards everything before an absolute component. -/
theorem pjoin_of_abs (a b : String) (hb : isabs b = true) : pjoin a b = b := by
  simp [pjoin, hb]

namespace SSHSplunk

/-- The remote resolver returns an absolute binary name unchanged whatever the
remote filesystem says, because `os.path.join` absorbs absolute components. -/
theorem gbp_abs_id (t : Transport) (home b : String) (hb : isabs b = true) :
    get_binary_path t home b = b := by
  unfold get_binary_path
  rw [pjoin_of_abs _ b hb, pjoin_of_abs _ b hb]
  by_cases h1 : t.isFile b = true
  · simp [h1]
  · simp [h1]

/-- With an absolute install root every remote-resolved path is absolute. -/
theorem gbp_isabs (t : Transport) (home b : String) (h : isabs home = true) :
    isabs (get_binary_path t home b) = true := by
  unfold get_binary_path
  by_cases hb : isabs b = true
  · rw [pjoin_of_abs _ b hb, pjoin_of_abs _ b hb]
    by_cases h1 : t.isFile b = true
    · simpa [h1]
    · simpa [h1]
  · simp only [Bool.not_eq_true] at hb
    have p1 : isabs (pjoin (pjoin home "bin") b) = true :=
      isabs_pjoin _ _ (isabs_pjoin _ _ h)
    have p2 : isabs (pjoin (pjoin (pjoin home "splunk") "bin") b) = true :=
      isabs_pjoin _ _ (isabs_pjoin _ _ (isabs_pjoin _ _ h))
    by_cases h1 : t.isFile (pjoin (pjoin home "bin") b) = true
    · simpa [h1]
    · by_cases h2 : t.isFile (pjoin (pjoin (pjoin home "splunk") "bin") b) = true
      · simpa [h1, h2]
      · simpa [h1, h2]

/-- Remote resolution is idempotent over an absolute install root. -/
theorem gbp_resolve_idem (t : Transport) (home b : String) (h : isabs home = true) :
    get_binary_path t home (get_binary_path t home b) = get_binary_path t home b :=
  gbp_abs_id t home _ (gbp_isabs t home b h)

/-- With an absolute root and the splunk binary present on the remote host,
`SSHSplunk.execute` serializes the binary path and flag-extended command into
one remote invocation. -/
theorem execute_runs (t : Transport) (home c : String)
    (h : isabs home = true) (hx : splunkBinaryExists t home = true) :
    execute t home c =
      (Except.ok (t.run (splunkBinary t home ++ " " ++ (c ++ " " ++ COMMON_FLAGS))),
       [Event.runCmd (splunkBinary t home ++ " " ++ (c ++ " " ++ COMMON_FLAGS))]) := by
  have hb : get_binary_path t home (splunkBinary t home) = splunkBinary t home :=
    gbp_resolve_idem t home "splunk" h
  have hx' : t.isFile (splunkBinary t home) = true := by
    unfold splunkBinaryExists at hx
    rw [hb] at hx
    exact hx
  unfold execute execute_no_flags execute_with_binary
  simp only [hx, if_true, hb, hx']

end SSHSplunk

/-- A transport stub on which every command exits 7 with the running token on
stdout (the instance never goes down). -/
def tC2 : Transport where
  isFile := fun _ => true
  isDir := fun _ => false
  run := fun _ => (7, "splunkd is running (PID: 1).", "")
  extractOutcome := Except.ok ()
  extractEntries := []

/-- C2 counterexample: on `tC2` the status probe still reports running after
`stop()`, yet the remote `SSHSplunk.stop` raises nothing — it returns `None`
(no exit code) after merely issuing the stop command and never verifies. -/
theorem claim_C2_counterexample :
    (SSHSplunk.is_running tC2 "/opt/splunk").1 = Except.ok true ∧
    SSHSplunk.stop tC2 "/opt/splunk" =
      (Except.ok (),
       [Event.runCmd
          "/opt/splunk/bin/splunk stop --accept-license --no-prompt --answer-yes"]) ∧
    isCouldNotStop (SSHSplunk.stop tC2 "/opt/splunk").1 = false := by
  refine ⟨rfl, rfl, by decide⟩

/-- C2 (amended): the local `stop()` issues the stop command, verifies via the
status probe, raises `CouldNotStopSplunk` with the command, exit code, stdout
and stderr when the probe still reports running, and returns the stop
command's exit code otherwise (so repeating it while not running raises
nothing); the remote `SSHSplunk.stop` override only issues the stop command:
it never verifies, never raises `CouldNotStopSplunk`, and returns no exit
code. -/
theorem claim_C2 (t : Transport) (home : String) (h : isabs home = true) :
    (LocalSplunk.splunkBinaryExists t home = true →
      (strContains (t.run ("status " ++ COMMON_FLAGS)).2.1 "splunkd is running" = false →
        LocalSplunk.stop t home =
          (Except.ok (t.run ("stop " ++ COMMON_FLAGS)).1,
           [Event.runCmd ("stop " ++ COMMON_FLAGS),
            Event.runCmd ("status " ++ COMMON_FLAGS)])) ∧
      (strContains (t.run ("status " ++ COMMON_FLAGS)).2.1 "splunkd is running" = true →
        (LocalSplunk.stop t home).1 =
          Except.error (SplunkError.couldNotStopSplunk "stop"
            (t.run ("stop " ++ COMMON_FLAGS)).1
            (t.run ("stop " ++ COMMON_FLAGS)).2.1
            (t.run ("stop " ++ COMMON_FLAGS)).2.2))) ∧
    (SSHSplunk.splunkBinaryExists t home = true →
      (SSHSplunk.stop t home).1 = Except.ok () ∧
      isCouldNotStop (SSHSplunk.stop t home).1 = false) := by
  constructor
  · intro hx
    constructor
    · intro hst
      unfold LocalSplunk.stop
      rw [LocalSplunk.execute_ok t home "stop" h hx]
      rw [LocalSplunk.is_running_eq t home h hx]
      simp [hst]
    · intro hst
      unfold LocalSplunk.stop
      rw [LocalSplunk.execute_ok t home "stop" h hx]
      rw [LocalSplunk.is_running_eq t home h hx]
      simp [hst]
  · intro hx
    unfold SSHSplunk.stop
    rw [SSHSplunk.execute_runs t home "stop" h hx]
    exact ⟨rfl, rfl⟩

/-- A transport stub on which the stop command exits 3 and the status probe
reports not-running. -/
def tC2w : Transport where
  isFile := fun _ => true
  isDir := fun _ => false
  run := fun _ => (3, "splunkd is not there.", "")
  extractOutcome := Except.ok ()
  extractEntries := []

/-- Witness for C2 at the concrete transport `tC2w`. -/
theorem claim_C2_witness :
    (LocalSplunk.splunkBinaryExists tC2w "/opt/splunk" = true →
      (strContains (tC2w.run ("status " ++ COMMON_FLAGS)).2.1 "splunkd is running" = false →
        LocalSplunk.stop tC2w "/opt/splunk" =
          (Except.ok (tC2w.run ("stop " ++ COMMON_FLAGS)).1,
           [Event.runCmd ("stop " ++ COMMON_FLAGS),
            Event.runCmd ("status " ++ COMMON_FLAGS)])) ∧
      (strContains (tC2w.run ("status " ++ COMMON_FLAGS)).2.1 "splunkd is running" = true →
        (LocalSplunk.stop tC2w "/opt/splunk").1 =
          Except.error (SplunkError.couldNotStopSplunk "stop"
            (tC2w.run ("stop " ++ COMMON_FLAGS)).1
            (tC2w.run ("stop " ++ COMMON_FLAGS)).2.1
            (tC2w.run ("stop " ++ COMMON_FLAGS)).2.2))) ∧
    (SSHSplunk.splunkBinaryExists tC2w "/opt/splunk" = true →
      (SSHSplunk.stop tC2w "/opt/splunk").1 = Except.ok () ∧
      isCouldNotStop (SSHSplunk.stop tC2w "/opt/splunk").1 = false) :=
  claim_C2 tC2w "/opt/splunk" (by decide)

/-- A transport stub on which only `/opt/splunk/splunk/bin/btool` exists. -/
def tC3 : Transport where
  isFile := fun p => p == "/opt/splunk/splunk/bin/btool"
  isDir := fun _ => false
  run := fun _ => (0, "", "")
  extractOutcome := Except.ok ()
  extractEntries := []

/-- C3 counterexample: on the remote transport `tC3`, resolving the relative
name `btool` against root `/opt/splunk` yields the fallback
`/opt/splunk/splunk/bin/btool`, not `root/bin/name`. -/
theorem claim_C3_counterexample :
    SSHSplunk.get_binary_path tC3 "/opt/splunk" "btool" = "/opt/splunk/splunk/bin/btool" ∧
    SSHSplunk.get_binary_path tC3 "/opt/splunk" "btool" ≠
      pjoin (pjoin "/opt/splunk" "bin") "btool" := by
  refine ⟨rfl, by decide⟩

/-- C3 (amended): an absolute name is returned unchanged by both transports
(remotely because `os.path.join` absorbs absolute components); a relative
name resolves to `root/bin/name` on the local transport always, and on the
remote transport whenever `root/bin/name` exists or the fallback
`root/splunk/bin/name` does not, while it resolves to the fallback when only
the fallback exists. -/
theorem claim_C3 (t : Transport) (home binary : String) :
    (isabs binary = true →
      LocalSplunk.get_binary_path home binary = binary ∧
      SSHSplunk.get_binary_path t home binary = binary) ∧
    (isabs binary = false →
      LocalSplunk.get_binary_path home binary = pjoin (pjoin home "bin") binary ∧
      (t.isFile (pjoin (pjoin home "bin") binary) = true →
        SSHSplunk.get_binary_path t home binary = pjoin (pjoin home "bin") binary) ∧
      (t.isFile (pjoin (pjoin (pjoin home "splunk") "bin") binary) = false →
        SSHSplunk.get_binary_path t home binary = pjoin (pjoin home "bin") binary) ∧
      (t.isFile (pjoin (pjoin home "bin") binary) = false →
        t.isFile (pjoin (pjoin (pjoin home "splunk") "bin") binary) = true →
        SSHSplunk.get_binary_path t home binary =
          pjoin (pjoin (pjoin home "splunk") "bin") binary)) := by
  constructor
  · intro hb
    exact ⟨LocalSplunk.gbp_of_abs home binary hb, SSHSplunk.gbp_abs_id t home binary hb⟩
  · intro hb
    refine ⟨by simp [LocalSplunk.get_binary_path, hb], ?_, ?_, ?_⟩
    · intro h1
      simp [SSHSplunk.get_binary_path, h1]
    · intro h2
      by_cases h1 : t.isFile (pjoin (pjoin home "bin") binary) = true
      · simp [SSHSplunk.get_binary_path, h1]
      · simp [SSHSplunk.get_binary_path, h1, h2]
    · intro h1 h2
      simp [SSHSplunk.get_binary_path, h1, h2]

/-- A transport stub on which no file exists. -/
def tC3w : Transport where
  isFile := fun _ => false
  isDir := fun _ => false
  run := fun _ => (0, "", "")
  extractOutcome := Except.ok ()
  extractEntries := []

/-- Witness for C3: the absolute name `/x/y` is returned unchanged by both
transports over `tC3w`. -/
theorem claim_C3_witness :
    LocalSplunk.get_binary_path "/opt" "/x/y" = "/x/y" ∧
    SSHSplunk.get_binary_path tC3w "/opt" "/x/y" = "/x/y" :=
  (claim_C3 tC3w "/opt" "/x/y").1 (by decide)

/-- C5 (confirmed): the candidate list is exactly the four product-root names
in this order, the directory probe returns the join of the scratch directory
with the first candidate contained in its entries (raising
`CouldNotFindSplunkDirectory` when none is), and an install over a layout with
no matching candidate fails with that error. -/
theorem claim_C5 :
    _POSSIBLE_ARCHIVE_DIRECTORIES =
      ["splunk", "splunkforwarder", "splunkbeta", "splunkforwarderbeta"] ∧
    (∀ dir entries, LocalSplunk._find_archive_directory_name dir entries =
      (match _POSSIBLE_ARCHIVE_DIRECTORIES.find? (fun nm => entries.contains nm) with
       | some nm => Except.ok (pjoin dir nm)
       | none => Except.error SplunkError.couldNotFindSplunkDirectory)) ∧
    (∀ (t : Transport) (home archive scratch : String),
      LocalSplunk.splunkBinaryExists t home = false →
      t.extractOutcome = Except.ok () →
      _POSSIBLE_ARCHIVE_DIRECTORIES.find? (fun nm => t.extractEntries.contains nm) = none →
      (LocalSplunk.install_from_archive t home archive scratch).1 =
        Except.error SplunkError.couldNotFindSplunkDirectory) := by
  refine ⟨rfl, ?_, ?_⟩
  · intro dir entries
    have loop : ∀ cands : List String, LocalSplunk.findDirLoop dir cands entries =
        (match cands.find? (fun nm => entries.contains nm) with
         | some nm => Except.ok (pjoin dir nm)
         | none => Except.error SplunkError.couldNotFindSplunkDirectory) := by
      intro cands
      induction cands with
      | nil => rfl
      | cons nm ns ih =>
        by_cases hm : nm ∈ entries
        · simp [LocalSplunk.findDirLoop, List.find?, hm]
        · simp [LocalSplunk.findDirLoop, List.find?, hm, ih]
    exact loop _POSSIBLE_ARCHIVE_DIRECTORIES
  · intro t home archive scratch hx hex hfind
    unfold LocalSplunk.install_from_archive LocalSplunk._stop_splunk_if_needed
    unfold LocalSplunk.is_running LocalSplunk.is_installed
    simp only [hx, Bool.false_eq_true, if_false]
    unfold LocalSplunk._install_archive_with_temp_directory
    rw [hex]
    have hfd : LocalSplunk._find_archive_directory_name scratch t.extractEntries =
        Except.error SplunkError.couldNotFindSplunkDirectory := by
      have loop : ∀ cands : List String,
          cands.find? (fun nm => t.extractEntries.contains nm) = none →
          LocalSplunk.findDirLoop scratch cands t.extractEntries =
            Except.error SplunkError.couldNotFindSplunkDirectory := by
        intro cands
        induction cands with
        | nil => intro _; rfl
        | cons nm ns ih =>
          intro hnone
          simp only [List.find?] at hnone
          by_cases hc : t.extractEntries.contains nm = true
          · rw [hc] at hnone
            simp at hnone
          · simp only [Bool.not_eq_true] at hc
            rw [hc] at hnone
            simp only [LocalSplunk.findDirLoop, hc, Bool.false_eq_true, if_false]
            exact ih hnone
      exact loop _POSSIBLE_ARCHIVE_DIRECTORIES hfind
    rw [hfd]

/-- A transport stub whose archiver deposits `fwd_tmp` and `splunkforwarder`. -/
def tC5w : Transport where
  isFile := fun _ => false
  isDir := fun _ => false
  run := fun _ => (0, "", "")
  extractOutcome := Except.ok ()
  extractEntries := ["fwd_tmp", "splunkforwarder", "splunk"]

/-- Witness for C5: with entries `[fwd_tmp, splunkforwarder, splunk]` the
probe picks `splunk` — the first name of the ordered candidate list present —
and an install over entries with no candidate fails with
`CouldNotFindSplunkDirectory`. -/
theorem claim_C5_witness :
    LocalSplunk._find_archive_directory_name "/tmp/x" ["fwd_tmp", "splunkforwarder", "splunk"] =
      Except.ok (pjoin "/tmp/x" "splunk") ∧
    (LocalSplunk.install_from_archive tC3w "/opt/splunk" "/a.tgz" "/tmp/x").1 =
      Except.error SplunkError.couldNotFindSplunkDirectory :=
  ⟨by rw [claim_C5.2.1 "/tmp/x" ["fwd_tmp", "splunkforwarder", "splunk"]]; rfl,
   claim_C5.2.2 tC3w "/opt/splunk" "/a.tgz" "/tmp/x" (by decide) rfl (by decide)⟩

/-- Events that touch no filesystem path. -/
def isCmdEvent : Event → Bool
  | Event.runCmd _ => true
  | Event.notifyListeners => true
  | _ => false

/-- A trace consisting only of commands and notifications. -/
def cmdOnly (evs : List Event) : Bool := evs.all isCmdEvent

/-- Command and notification events leave the filesystem unchanged. -/
theorem applyEvent_of_cmd (t : Transport) (fs : String → Bool) (e : Event)
    (h : isCmdEvent e = true) : applyEvent t fs e = fs := by
  cases e
  all_goals first | rfl | simp [isCmdEvent] at h

/-- A command-only trace leaves the filesystem unchanged. -/
theorem evalFS_cmdOnly (t : Transport) (evs : List Event) :
    ∀ (fs : String → Bool) (q : String), cmdOnly evs = true → evalFS t fs evs q = fs q := by
  induction evs with
  | nil => intro fs q _; rfl
  | cons e es ih =>
    intro fs q h
    rw [cmdOnly, List.all_cons, Bool.and_eq_true] at h
    have ha : applyEvent t fs e = fs := applyEvent_of_cmd t fs e h.1
    show evalFS t (applyEvent t fs e) es q = fs q
    rw [ha]
    exact ih fs q h.2

/-- `evalFS` over an appended trace. -/
theorem evalFS_append (t : Transport) (fs : String → Bool) (a b : List Event) (q : String) :
    evalFS t fs (a ++ b) q = evalFS t (evalFS t fs a) b q := by
  unfold evalFS
  rw [List.foldl_append]

/-- `evalFS` over a trace with one final event. -/
theorem evalFS_snoc (t : Transport) (fs : String → Bool) (evs : List Event) (e : Event)
    (q : String) : evalFS t fs (evs ++ [e]) q = applyEvent t (evalFS t fs evs) e q := by
  unfold evalFS
  rw [List.foldl_append]
  rfl

/-- Removing a tree erases its own root. -/
theorem applyEvent_removeTree_self (t : Transport) (fs : String → Bool) (p : String) :
    applyEvent t fs (Event.removeTree p) p = false := by
  simp [applyEvent]

namespace LocalSplunk

/-- `execute` produces one of three results. -/
theorem execute_shape (t : Transport) (home c : String) :
    execute t home c = (Except.error SplunkError.splunkNotInstalled, []) ∨
    (∃ b, execute t home c = (Except.error (SplunkError.binaryMissing b), [])) ∨
    execute t home c =
      (Except.ok (t.run (c ++ " " ++ COMMON_FLAGS)),
       [Event.runCmd (c ++ " " ++ COMMON_FLAGS)]) := by
  unfold execute execute_no_flags execute_with_binary
  by_cases h1 : splunkBinaryExists t home = true
  · by_cases h2 :
        t.isFile (get_binary_path home (get_binary_path home (splunkBinary home))) = true
    · right; right
      simp [h1, h2]
    · right; left
      refine ⟨get_binary_path home (splunkBinary home), ?_⟩
      simp only [Bool.not_eq_true] at h2
      simp [h1, h2]
  · left
    simp only [Bool.not_eq_true] at h1
    simp [h1]

/-- `execute` issues commands only. -/
theorem execute_cmdOnly (t : Transport) (home c : String) :
    cmdOnly (execute t home c).2 = true := by
  rcases execute_shape t home c with h | ⟨b, h⟩ | h <;> rw [h] <;> rfl

/-- The status probe issues commands only. -/
theorem is_running_cmdOnly (t : Transport) (home : String) :
    cmdOnly (is_running t home).2 = true := by
  unfold is_running is_installed
  by_cases h1 : splunkBinaryExists t home = true
  · simp only [h1, if_true]
    rcases he : execute t home "status" with ⟨r, evs⟩
    have h2 : cmdOnly evs = true := by
      have h0 := execute_cmdOnly t home "status"
      rw [he] at h0
      exact h0
    cases r with
    | ok v =>
      rcases v with ⟨a, b, c2⟩
      exact h2
    | error e => exact h2
  · simp only [Bool.not_eq_true] at h1
    simp only [h1, Bool.false_eq_true, if_false]
    rfl

/-- `cmdOnly` distributes over append. -/
theorem cmdOnly_append (a b : List Event) :
    cmdOnly (a ++ b) = (cmdOnly a && cmdOnly b) := by
  unfold cmdOnly
  exact List.all_append

/-- `stop` issues commands only. -/
theorem stop_cmdOnly (t : Transport) (home : String) :
    cmdOnly (stop t home).2 = true := by
  unfold stop
  rcases he : execute t home "stop" with ⟨r, evs⟩
  have h2 : cmdOnly evs = true := by
    have h0 := execute_cmdOnly t home "stop"
    rw [he] at h0
    exact h0
  cases r with
  | error e => exact h2
  | ok v =>
    rcases v with ⟨code, sout, serr⟩
    rcases hr : is_running t home with ⟨r1, evs1⟩
    have h3 : cmdOnly evs1 = true := by
      have h0 := is_running_cmdOnly t home
      rw [hr] at h0
      exact h0
    cases r1 with
    | error e =>
      show cmdOnly (evs ++ evs1) = true
      rw [cmdOnly_append, h2, h3]
      rfl
    | ok running =>
      cases running
      all_goals
        show cmdOnly (evs ++ evs1) = true
      all_goals rw [cmdOnly_append, h2, h3]
      all_goals rfl

/-- `_stop_splunk_if_needed` issues commands only. -/
theorem stop_if_needed_cmdOnly (t : Transport) (home : String) :
    cmdOnly (_stop_splunk_if_needed t home).2 = true := by
  unfold _stop_splunk_if_needed
  rcases hr : is_running t home with ⟨r0, evs0⟩
  have h0 : cmdOnly evs0 = true := by
    have hh := is_running_cmdOnly t home
    rw [hr] at hh
    exact hh
  cases r0 with
  | error e => exact h0
  | ok running =>
    cases running with
    | false => exact h0
    | true =>
      rcases hs : stop t home with ⟨r1, evs1⟩
      have h1 : cmdOnly evs1 = true := by
        have hh := stop_cmdOnly t home
        rw [hs] at hh
        exact hh
      cases r1 with
      | error e =>
        show cmdOnly (evs0 ++ evs1) = true
        rw [cmdOnly_append, h0, h1]
        rfl
      | ok code =>
        show cmdOnly (evs0 ++ evs1) = true
        rw [cmdOnly_append, h0, h1]
        rfl

end LocalSplunk

/-- C4 (confirmed): for every transport and archiver behaviour, after
`install_from_archive` returns or raises, the freshly created scratch
directory (absent beforehand, as `tempfile.mkdtemp` guarantees) is absent:
either the pre-install stop raised before the scratch directory was created,
or the `finally` block removed it
(`fileutils.force_remove_directory`, modelled from the spec). -/
theorem claim_C4 (t : Transport) (home archive scratch : String) (fs0 : String → Bool)
    (hfresh : fs0 scratch = false) :
    evalFS t fs0 (LocalSplunk.install_from_archive t home archive scratch).2 scratch = false := by
  unfold LocalSplunk.install_from_archive
  rcases hs : LocalSplunk._stop_splunk_if_needed t home with ⟨r0, evs0⟩
  have hc0 : cmdOnly evs0 = true := by
    have hh := LocalSplunk.stop_if_needed_cmdOnly t home
    rw [hs] at hh
    exact hh
  cases r0 with
  | error e =>
    show evalFS t fs0 evs0 scratch = false
    rw [evalFS_cmdOnly t evs0 fs0 scratch hc0]
    exact hfresh
  | ok u =>
    rcases hi : LocalSplunk._install_archive_with_temp_directory t home archive scratch
      with ⟨r1, evs1⟩
    cases r1 with
    | error e =>
      show evalFS t fs0
        (evs0 ++ [Event.makeDir scratch] ++ evs1 ++ force_remove_directory scratch)
        scratch = false
      rw [show force_remove_directory scratch = [Event.removeTree scratch] from rfl]
      rw [evalFS_snoc]
      exact applyEvent_removeTree_self t _ scratch
    | ok v =>
      show evalFS t fs0
        (evs0 ++ [Event.makeDir scratch] ++ evs1 ++ force_remove_directory scratch)
        scratch = false
      rw [show force_remove_directory scratch = [Event.removeTree scratch] from rfl]
      rw [evalFS_snoc]
      exact applyEvent_removeTree_self t _ scratch

/-- A transport stub whose archiver raises. -/
def tC4w : Transport where
  isFile := fun _ => false
  isDir := fun _ => false
  run := fun _ => (0, "", "")
  extractOutcome := Except.error (SplunkError.externalError "corrupt archive")
  extractEntries := []

/-- Witness for C4: with a raising archiver and an initially absent scratch
path, the scratch directory is absent after the failed install. -/
theorem claim_C4_witness :
    (fun _ : String => false) "/tmp/scratch" = false ∧
    evalFS tC4w (fun _ => false)
      (LocalSplunk.install_from_archive tC4w "/opt/splunk" "/a.tgz" "/tmp/scratch").2
      "/tmp/scratch" = false :=
  ⟨rfl, claim_C4 tC4w "/opt/splunk" "/a.tgz" "/tmp/scratch" (fun _ => false) rfl⟩

/-- Dropping a satisfying-prefix of replicated characters. -/
theorem dropWhile_replicate_append (p : Char → Bool) (c : Char) (hc : p c = true)
    (k : Nat) (xs : List Char) :
    (List.replicate k c ++ xs).dropWhile p = xs.dropWhile p := by
  induction k with
  | zero => rfl
  | succ m ih => simp [List.replicate_succ, List.dropWhile_cons, hc, ih]

/-- `dropWhile` never lengthens a list. -/
theorem dropWhile_length_le (p : Char → Bool) :
    ∀ l : List Char, (l.dropWhile p).length ≤ l.length := by
  intro l
  induction l with
  | nil => simp
  | cons a as ih =>
    rw [List.dropWhile_cons]
    by_cases hp : p a = true
    · simp only [hp, if_true]
      exact Nat.le_succ_of_le ih
    · simp [hp]

/-- If `dropWhile` removes nothing from a nonempty list, its head fails the
predicate. -/
theorem head_not_of_dropWhile_eq (p : Char → Bool) (b : Char) (bs : List Char)
    (h : (b :: bs).dropWhile p = b :: bs) : p b = false := by
  by_cases hb : p b = true
  · exfalso
    rw [List.dropWhile_cons, if_pos hb] at h
    have hl := dropWhile_length_le p bs
    rw [h] at hl
    simp at hl
  · simpa using hb

/-- Stripping a both-ends-stripped body followed by trailing newlines yields
the body back. -/
theorem pystrip_body_newlines (body : List Char) (k : Nat)
    (h1 : body.dropWhile isPyWS = body)
    (h2 : body.reverse.dropWhile isPyWS = body.reverse) :
    pystripL (body ++ List.replicate k '\n') = body := by
  unfold pystripL
  have hnl : isPyWS '\n' = true := by decide
  cases body with
  | nil =>
    simp only [List.nil_append]
    rw [show (List.replicate k '\n').dropWhile isPyWS =
        ([] : List Char).dropWhile isPyWS from by
      simpa using dropWhile_replicate_append isPyWS '\n' hnl k []]
    rfl
  | cons b bs =>
    have hb : isPyWS b = false := head_not_of_dropWhile_eq isPyWS b bs h1
    rw [List.cons_append, List.dropWhile_cons, if_neg (by simp [hb])]
    rw [show (b :: (bs ++ List.replicate k '\n')).reverse =
        List.replicate k '\n' ++ (b :: bs).reverse from by
      simp [List.reverse_cons, List.reverse_append, List.reverse_replicate]]
    rw [dropWhile_replicate_append isPyWS '\n' hnl k ((b :: bs).reverse)]
    rw [h2, List.reverse_reverse]

/-- C6 (confirmed): a port read returns the distinguished unknown value
(`None`) when the splunk binary is absent or the query exits non-zero;
otherwise, for any stdout consisting of a stripped body followed by trailing
newlines, it returns the integer parsed from the body's last line — which is
the last non-empty line of stdout. -/
theorem claim_C6 (t : Transport) (home cmdName : String) (body : List Char) (k : Nat)
    (n : Int) :
    (LocalSplunk.splunkBinaryExists t home = false →
      LocalSplunk._read_port_from_command t home cmdName = (Except.ok none, [])) ∧
    (isabs home = true → LocalSplunk.splunkBinaryExists t home = true →
      ((t.run (cmdName ++ " " ++ COMMON_FLAGS)).1 ≠ 0 →
        (LocalSplunk._read_port_from_command t home cmdName).1 = Except.ok none) ∧
      ((t.run (cmdName ++ " " ++ COMMON_FLAGS)).1 = 0 →
        (t.run (cmdName ++ " " ++ COMMON_FLAGS)).2.1.data = body ++ List.replicate k '\n' →
        body.dropWhile isPyWS = body →
        body.reverse.dropWhile isPyWS = body.reverse →
        pythonIntL ((linesOf body).getLastD []) = some n →
        (LocalSplunk._read_port_from_command t home cmdName).1 = Except.ok (some n))) := by
  constructor
  · intro hx
    unfold LocalSplunk._read_port_from_command
    simp [hx]
  · intro h hx
    constructor
    · intro hc
      rw [LocalSplunk.read_port_eq t home cmdName h hx]
      simp [hc]
    · intro hc hdata h1 h2 hp
      rw [LocalSplunk.read_port_eq t home cmdName h hx]
      have hrow : lastRowOf (t.run (cmdName ++ " " ++ COMMON_FLAGS)).2.1 =
          (linesOf body).getLastD [] := by
        unfold lastRowOf
        rw [hdata, pystrip_body_newlines body k h1 h2]
      simp only [hc, ne_eq, not_true_eq_false, if_false, ite_false]
      rw [hrow, hp]

/-- A transport stub printing a banner line before the port. -/
def tC6w : Transport where
  isFile := fun _ => true
  isDir := fun _ => false
  run := fun _ => (0, "warning: deprecated flag\n8089\n", "")
  extractOutcome := Except.ok ()
  extractEntries := []

/-- Witness for C6: stdout `"warning: deprecated flag\n8089\n"` yields 8089. -/
theorem claim_C6_witness :
    (tC6w.run ("httpport " ++ COMMON_FLAGS)).1 = 0 ∧
    (tC6w.run ("httpport " ++ COMMON_FLAGS)).2.1.data =
      "warning: deprecated flag\n8089".data ++ List.replicate 1 '\n' ∧
    pythonIntL ((linesOf "warning: deprecated flag\n8089".data).getLastD []) = some 8089 ∧
    (LocalSplunk._read_port_from_command tC6w "/opt/splunk" "httpport").1 =
      Except.ok (some 8089) :=
  ⟨by decide, by decide, by decide,
   ((claim_C6 tC6w "/opt/splunk" "httpport" "warning: deprecated flag\n8089".data 1
        8089).2 (by decide) (by decide)).2 (by decide) (by decide) (by decide)
      (by decide) (by decide)⟩

/-- C9 (confirmed): when the splunk binary is present, the query exits 0, but
`int()` cannot parse the last row of the stripped stdout, the port read raises
`ValueError` instead of returning the unknown value. -/
theorem claim_C9 (t : Transport) (home cmdName : String)
    (h : isabs home = true)
    (hx : LocalSplunk.splunkBinaryExists t home = true)
    (hc : (t.run (cmdName ++ " " ++ COMMON_FLAGS)).1 = 0)
    (hp : pythonIntL (lastRowOf (t.run (cmdName ++ " " ++ COMMON_FLAGS)).2.1) = none) :
    (LocalSplunk._read_port_from_command t home cmdName).1 =
      Except.error SplunkError.valueError := by
  rw [LocalSplunk.read_port_eq t home cmdName h hx]
  simp only [hc, ne_eq, not_true_eq_false, if_false, ite_false]
  rw [hp]

/-- A transport stub whose port query exits 0 with non-numeric stdout. -/
def tC9w : Transport where
  isFile := fun _ => true
  isDir := fun _ => false
  run := fun _ => (0, "no port configured", "")
  extractOutcome := Except.ok ()
  extractEntries := []

/-- Witness for C9: stdout `"no port configured"` with exit code 0 makes the
port read raise `ValueError`. -/
theorem claim_C9_witness :
    (tC9w.run ("soapport " ++ COMMON_FLAGS)).1 = 0 ∧
    pythonIntL (lastRowOf (tC9w.run ("soapport " ++ COMMON_FLAGS)).2.1) = none ∧
    (LocalSplunk._read_port_from_command tC9w "/opt/splunk" "soapport").1 =
      Except.error SplunkError.valueError :=
  ⟨by decide, by decide,
   claim_C9 tC9w "/opt/splunk" "soapport" (by decide) (by decide) (by decide) (by decide)⟩

/-- A transport stub on which nothing is installed (no files, no dirs). -/
def tC7 : Transport where
  isFile := fun _ => false
  isDir := fun _ => false
  run := fun _ => (0, "", "")
  extractOutcome := Except.ok ()
  extractEntries := []

/-- C7 counterexample: on `tC7` the instance is not installed, yet
`uninstall()` still issues a recursive delete of the install root through the
transport, and an install-root directory that existed beforehand is removed —
the filesystem is not left unchanged. -/
theorem claim_C7_counterexample :
    LocalSplunk.is_installed tC7 "/opt/splunk" = false ∧
    LocalSplunk.uninstall tC7 "/opt/splunk" =
      (Except.ok (), [Event.removeTree "/opt/splunk"]) ∧
    evalFS tC7 (fun _ => true) (LocalSplunk.uninstall tC7 "/opt/splunk").2
      "/opt/splunk" = false := by
  refine ⟨by decide, rfl, by decide⟩

/-- C7 (amended): `uninstall()` on a not-installed instance raises no
exception and issues no command through the transport (the running check is
already false), but it unconditionally issues one recursive delete of the
install root — both locally (`fileutils.force_remove_directory`, modelled
from the spec) and remotely (`force_remove_tree`) — so an install root that
exists is removed rather than left unchanged. -/
theorem claim_C7 (t : Transport) (home : String) (fs0 : String → Bool)
    (hx : LocalSplunk.splunkBinaryExists t home = false)
    (hxs : SSHSplunk.splunkBinaryExists t home = false) :
    LocalSplunk.uninstall t home = (Except.ok (), [Event.removeTree home]) ∧
    SSHSplunk.uninstall t home = (Except.ok (), [Event.removeTree home]) ∧
    evalFS t fs0 (LocalSplunk.uninstall t home).2 home = false := by
  have hlocal : LocalSplunk.uninstall t home = (Except.ok (), [Event.removeTree home]) := by
    unfold LocalSplunk.uninstall LocalSplunk._stop_splunk_if_needed LocalSplunk.is_running
      LocalSplunk.is_installed
    simp [hx, force_remove_directory]
  refine ⟨hlocal, ?_, ?_⟩
  · unfold SSHSplunk.uninstall SSHSplunk._stop_splunk_if_needed SSHSplunk.is_running
    simp [hxs]
  · rw [hlocal]
    simp [evalFS, applyEvent]

/-- Another not-installed transport stub, with the install root present as a
directory. -/
def tC7w : Transport where
  isFile := fun _ => false
  isDir := fun p => p == "/opt/splunk"
  run := fun _ => (0, "", "")
  extractOutcome := Except.ok ()
  extractEntries := []

/-- Witness for C7 at the concrete transport `tC7w`. -/
theorem claim_C7_witness :
    LocalSplunk.splunkBinaryExists tC7w "/opt/splunk" = false ∧
    SSHSplunk.splunkBinaryExists tC7w "/opt/splunk" = false ∧
    (LocalSplunk.uninstall tC7w "/opt/splunk" =
      (Except.ok (), [Event.removeTree "/opt/splunk"]) ∧
     SSHSplunk.uninstall tC7w "/opt/splunk" =
      (Except.ok (), [Event.removeTree "/opt/splunk"]) ∧
     evalFS tC7w (fun _ => true) (LocalSplunk.uninstall tC7w "/opt/splunk").2
      "/opt/splunk" = false) :=
  ⟨by decide, by decide,
   claim_C7 tC7w "/opt/splunk" (fun _ => true) (by decide) (by decide)⟩

/-- A transport stub on which the splunk binary exists but no app directory
does. -/
def tC8 : Transport where
  isFile := fun _ => true
  isDir := fun _ => false
  run := fun _ => (0, "", "")
  extractOutcome := Except.ok ()
  extractEntries := []

/-- C8: evaluating the code at the failing input.  With the app absent
(`has_app` false) the remote `install_app` returns `False` immediately — no
scratch directory, no extraction, no transfer — because its guard
`if not self.has_app(name): return False` is inverted; the local variant
extracts the package into the apps directory as the claim describes. -/
theorem claim_C8 :
    LocalSplunk.has_app tC8 "/opt/splunk" "myapp" = false ∧
    SSHSplunk.has_app tC8 "/opt/splunk" "myapp" = false ∧
    SSHSplunk.install_app tC8 "/opt/splunk" "myapp" "/pkg.tgz" "/tmp" =
      (Except.ok false, []) ∧
    LocalSplunk.install_app tC8 "/opt/splunk" "myapp" "/pkg.tgz" =
      (Except.ok (), [Event.extractArchive "/pkg.tgz" (LocalSplunk.apps_dir "/opt/splunk")]) := by
  refine ⟨by decide, by decide, rfl, rfl⟩
